import Mathlib

/-!
# Verification of the viam-rdk reference-frame and motion-resolution core

Shallow embedding of the repository's frame-system / motion-service core and
of two hardware drivers (the wx250s arm, the serial NMEA GPS) plus the board
gRPC server, together with theorems settling the frozen claims C1..C10.

The motion service implementation (`services/motion/builtin`, `referenceframe`,
`robot/framesystem/parts`, `spatialmath`) is not among the provided source
files — only its test suite `services/motion/builtin/builtin_test.go` is.
Definitions for that part are therefore modelled from the spec (sections 3,
4.1–4.5) and are marked `Modelled from the spec:` in their doc comments; the
test fixtures (`arm_gantry.json`, `moving_arm.json`) are likewise modelled
from the values the spec and the tests pin down.  The wx250s arm
(`robots/wx250s/arm.go`), the NMEA GPS (`sensor/gps/nmea/serial.go`) and the
board server are embedded directly from their Go source.

Real-valued pose arithmetic is embedded over `ℚ` (the fixtures use exact
decimal values, so every test equality is exact rational arithmetic).
-/

namespace RDK

/-! ## Pose primitives (spec §4.1, `spatialmath`)

Modelled from the spec: `spatialmath` is not among the source files.  A pose
is a position (3 coordinates, millimeters) plus an orientation; we use a
quaternion orientation ("any internally consistent representation").
-/

/-- A 3-vector of rational coordinates (millimeters). -/
@[ext] structure V3 where
  x : ℚ
  y : ℚ
  z : ℚ
  deriving DecidableEq, Repr

/-- Vector addition. -/
def addV (a b : V3) : V3 := ⟨a.x + b.x, a.y + b.y, a.z + b.z⟩

/-- Vector negation. -/
def negV (a : V3) : V3 := ⟨-a.x, -a.y, -a.z⟩

/-- Componentwise halving (used for box half-extents). -/
def halfV (a : V3) : V3 := ⟨a.x / 2, a.y / 2, a.z / 2⟩

/-- A quaternion over `ℚ` representing an orientation. -/
@[ext] structure Quat where
  w : ℚ
  x : ℚ
  y : ℚ
  z : ℚ
  deriving DecidableEq, Repr

/-- Hamilton product of quaternions. -/
def qmul (a b : Quat) : Quat :=
  ⟨a.w * b.w - a.x * b.x - a.y * b.y - a.z * b.z,
   a.w * b.x + a.x * b.w + a.y * b.z - a.z * b.y,
   a.w * b.y - a.x * b.z + a.y * b.w + a.z * b.x,
   a.w * b.z + a.x * b.y - a.y * b.x + a.z * b.w⟩

/-- Quaternion conjugate. -/
def qconj (a : Quat) : Quat := ⟨a.w, -a.x, -a.y, -a.z⟩

/-- Squared norm of a quaternion; the spec's invariant "orientation is always
normalized" is `qnormSq q = 1`. -/
def qnormSq (a : Quat) : ℚ := a.w * a.w + a.x * a.x + a.y * a.y + a.z * a.z

/-- The identity orientation. -/
def qid : Quat := ⟨1, 0, 0, 0⟩

/-- Rotate a vector by a quaternion: the vector part of `q · (0,v) · q*`. -/
def rotateQ (q : Quat) (v : V3) : V3 :=
  let r := qmul (qmul q ⟨0, v.x, v.y, v.z⟩) (qconj q)
  ⟨r.x, r.y, r.z⟩

/-- A 6-DoF pose: position plus orientation (spec §3 "Pose"). -/
@[ext] structure Pose where
  pos : V3
  ori : Quat
  deriving DecidableEq, Repr

/-- Modelled from the spec: `Compose(a, b)` applies `b` in `a`'s frame. -/
def composePose (a b : Pose) : Pose :=
  ⟨addV a.pos (rotateQ a.ori b.pos), qmul a.ori b.ori⟩

/-- Modelled from the spec: `Invert(p)`; for a normalized orientation the
inverse transform. -/
def invertPose (p : Pose) : Pose :=
  ⟨negV (rotateQ (qconj p.ori) p.pos), qconj p.ori⟩

/-- The identity pose (zero position, identity orientation). -/
def idPose : Pose := ⟨⟨0, 0, 0⟩, qid⟩

/-! ## Frame System (spec §3, §4.2)

Modelled from the spec: the `referenceframe` frame-system graph is not among
the source files.  A frame system is a list of frames in insertion order
(parent-before-child), each recording its name, its declared parent's name
and its pose relative to that parent (the fixture frames are queried at the
robot's current — zero — joint inputs, so each frame contributes a fixed
pose).  The root frame is named `"world"` and is implicit.
-/

/-- One frame node: name, declared parent name, pose relative to the parent. -/
structure FrameEntry where
  name : String
  parent : String
  pose : Pose
  deriving DecidableEq, Repr

/-- A frame system: frames in insertion order, rooted at `"world"`. -/
abbrev FrameSystem := List FrameEntry

/-- The well-known root frame name. -/
def worldName : String := "world"

/-- Whether `n` names a frame of the system (the root `"world"` always does). -/
def hasFrame (fs : FrameSystem) (n : String) : Bool :=
  n == worldName || fs.any (fun e => e.name == n)

/-- Fuel-bounded walk up the parent chain, composing each frame's pose on the
way to the root; `none` when the name is absent or the chain does not reach
`"world"` within the fuel. -/
def poseInWorldAux (fs : FrameSystem) : Nat → String → Option Pose
  | 0, n => if n = worldName then some idPose else none
  | fuel + 1, n =>
    if n = worldName then some idPose
    else
      match fs.find? (fun e => e.name == n) with
      | none => none
      | some e => (poseInWorldAux fs fuel e.parent).map (fun p => composePose p e.pose)

/-- Pose of the named frame expressed in the world frame. -/
def poseInWorld (fs : FrameSystem) (n : String) : Option Pose :=
  poseInWorldAux fs (fs.length + 1) n

/-- Modelled from the spec: `TransformFrame(src, dst)` — the pose of frame
`src` expressed in frame `dst`, obtained by composing the (inverted) chain
of `dst` up to the root with the chain of `src`; fails when either name is
absent (`FrameNotFound`). -/
def transformFrame (fs : FrameSystem) (src dst : String) : Option Pose :=
  match poseInWorld fs src, poseInWorld fs dst with
  | some ps, some pd => some (composePose (invertPose pd) ps)
  | _, _ => none

/-! ## World State and its merge (spec §3, §4.3) -/

/-- A supplemental named transform of a World State: declares its parent
frame's name, its own name, and a pose (mirrors
`referenceframe.NewNamedPoseInFrame(parent, pose, name)`). -/
structure STransform where
  parent : String
  name : String
  pose : Pose
  deriving DecidableEq, Repr

/-- The structured error of `framesystemparts.NewMissingParentError(frame,
parent)`: names the orphan frame and its unresolved parent. -/
structure MissingParent where
  frame : String
  missingParent : String
  deriving DecidableEq, Repr

/-- Modelled from the spec: merging a World State's supplemental transforms
into (a working copy of) a frame system.  Each transform becomes a zero-DoF
frame under its declared parent; a transform's parent must resolve either to
a frame already in the system or to a supplemental transform inserted
earlier, otherwise the whole World State is rejected with
`MissingParentError{frame, missingParent}` and no partial merge is
produced. -/
def mergeTransforms (fs : FrameSystem) : List STransform → Except MissingParent FrameSystem
  | [] => .ok fs
  | t :: rest =>
    if hasFrame fs t.parent then
      mergeTransforms (fs ++ [⟨t.name, t.parent, t.pose⟩]) rest
    else .error ⟨t.name, t.parent⟩

/-! ## Obstacles and collision model (spec §3 "World State", §4.4)

Modelled from the spec: obstacle geometries (boxes with center pose and
dimensions, anchored to a named frame) are carried alongside the supplemental
transforms and queried by the kinematic model's collision check after being
transformed into the solving frame.
-/

/-- A box obstacle: anchoring frame name, center pose in that frame,
dimensions (full extents, millimeters). -/
structure Obstacle where
  frame : String
  center : Pose
  dims : V3
  deriving DecidableEq, Repr

/-- A World State: obstacles plus supplemental transforms (spec §3). -/
structure WorldState where
  obstacles : List Obstacle := []
  transforms : List STransform := []
  deriving DecidableEq, Repr

/-- Rational absolute value, written out to keep the embedding executable. -/
def absQ (q : ℚ) : ℚ := if q < 0 then -q else q

/-- Exact separating-axis test: does the closed segment from `a` to `b`
intersect the axis-aligned box with center `c` and half-extents `h`?  Used as
the collision check of the modelled kinematic solve. -/
def segIntersectsBox (a b c h : V3) : Bool :=
  let mx := (a.x + b.x) / 2 - c.x
  let my := (a.y + b.y) / 2 - c.y
  let mz := (a.z + b.z) / 2 - c.z
  let dx := (b.x - a.x) / 2
  let dy := (b.y - a.y) / 2
  let dz := (b.z - a.z) / 2
  absQ mx ≤ h.x + absQ dx && absQ my ≤ h.y + absQ dy && absQ mz ≤ h.z + absQ dz &&
  absQ (my * dz - mz * dy) ≤ h.y * absQ dz + h.z * absQ dy &&
  absQ (mz * dx - mx * dz) ≤ h.z * absQ dx + h.x * absQ dz &&
  absQ (mx * dy - my * dx) ≤ h.x * absQ dy + h.y * absQ dx

/-! ## Motion Resolver / Service (spec §4.5, §6, §7) -/

/-- Capability kinds of the fixture components (spec §9 "explicit tagged
capability set"): arms and gantries expose a kinematic chain, grippers and
cameras do not. -/
inductive Kind where
  | arm
  | gantry
  | gripper
  | camera
  deriving DecidableEq, Repr

/-- Whether a component of this kind has an articulated kinematic chain. -/
def Kind.kinematic : Kind → Bool
  | .arm => true
  | .gantry => true
  | .gripper => false
  | .camera => false

/-- A named robot component: capability kind, the name of its frame in the
frame system, and (for attached parts such as a gripper on an arm) the name
of the component it is attached to. -/
structure Component where
  name : String
  kind : Kind
  frame : String
  attachedTo : Option String := none
  deriving DecidableEq, Repr

/-- A robot: its resource registry (components) and its static frame system
built at configuration time. -/
structure Robot where
  components : List Component
  frames : FrameSystem
  deriving DecidableEq, Repr

/-- Registry lookup: name → component, `none` when absent (spec §6). -/
def lookupComponent (r : Robot) (n : String) : Option Component :=
  r.components.find? (fun c => c.name == n)

/-- The typed errors of the motion core (spec §7). -/
inductive MotionError where
  | componentNotFound (name : String)
  | missingParent (frame missingParent : String)
  | frameNotFound (name : String)
  | infeasible
  | notMovable (name : String)
  deriving DecidableEq, Repr

/-- A pose tagged with the name of the frame it is expressed in. -/
structure PoseInFrame where
  frame : String
  pose : Pose
  deriving DecidableEq, Repr

/-- Modelled from the spec: `GetPose(componentName, destinationFrameName,
supplementalTransforms)` — the read-only steps 1–3 of the resolver state
machine (§4.5): validate the component, merge the supplemental transforms,
resolve the component's pose in the destination frame (empty destination
name means the world frame). -/
def getPose (r : Robot) (componentName destFrame : String)
    (supplementalTransforms : List STransform) : Except MotionError PoseInFrame :=
  match lookupComponent r componentName with
  | none => .error (.componentNotFound componentName)
  | some comp =>
    match mergeTransforms r.frames supplementalTransforms with
    | .error e => .error (.missingParent e.frame e.missingParent)
    | .ok fs =>
      let dst := if destFrame = "" then worldName else destFrame
      match transformFrame fs comp.frame dst with
      | none => .error (.frameNotFound dst)
      | some p => .ok ⟨dst, p⟩

/-- Modelled from the spec (§4.5 step 4): the component solved for — the
named component itself when it has a kinematic chain, else the component it
is attached to when that one has a kinematic chain, else none
(`NotMovable`). -/
def solvingComponent (r : Robot) (comp : Component) : Option Component :=
  if comp.kind.kinematic then some comp
  else
    match comp.attachedTo with
    | none => none
    | some parentName =>
      match lookupComponent r parentName with
      | none => none
      | some parent => if parent.kind.kinematic then some parent else none

/-- Transform each obstacle into the world frame: center position (in world)
and half-extents; fails with `FrameNotFound` if an anchoring frame is
absent. -/
def resolveObstacles (fs : FrameSystem) : List Obstacle → Except MotionError (List (V3 × V3))
  | [] => .ok []
  | o :: rest =>
    match poseInWorld fs o.frame with
    | none => .error (.frameNotFound o.frame)
    | some fp =>
      match resolveObstacles fs rest with
      | .error e => .error e
      | .ok tail => .ok (((composePose fp o.center).pos, halfV o.dims) :: tail)

/-- A low-level command emitted by a successful motion resolution. -/
inductive Command where
  | moveTo (component : String) (target : Pose)
  deriving DecidableEq, Repr

/-- Modelled from the spec (§4.4): the constrained kinematic solve, abstracted
to its feasibility structure — the candidate motion is the straight-line path
of the effector from its current position to the target position, and the
solve fails with `Infeasible` when that path intersects an obstacle. -/
def solveIK (current target : Pose) (boxes : List (V3 × V3)) : Except MotionError Pose :=
  if boxes.any (fun b => segIntersectsBox current.pos target.pos b.1 b.2) then
    .error .infeasible
  else .ok target

/-- Modelled from the spec: `Move(componentName, destinationPoseInFrame,
worldState)` — the full resolver state machine of §4.5: validate, merge,
resolve the target into the world frame, dispatch by capability (an attached
non-kinematic component is solved via its kinematic parent; `NotMovable`
when none exists), solve, and emit the command list.  Every failure returns
the typed error and commands no motion. -/
def move (r : Robot) (componentName : String) (destination : PoseInFrame)
    (worldState : WorldState) : Except MotionError (List Command) :=
  match lookupComponent r componentName with
  | none => .error (.componentNotFound componentName)
  | some comp =>
    match mergeTransforms r.frames worldState.transforms with
    | .error e => .error (.missingParent e.frame e.missingParent)
    | .ok fs =>
      match poseInWorld fs destination.frame with
      | none => .error (.frameNotFound destination.frame)
      | some fp =>
        let target := composePose fp destination.pose
        match solvingComponent r comp with
        | none => .error (.notMovable componentName)
        | some solveComp =>
          match poseInWorld fs solveComp.frame with
          | none => .error (.frameNotFound solveComp.frame)
          | some current =>
            match resolveObstacles fs worldState.obstacles with
            | .error e => .error e
            | .ok boxes =>
              match solveIK current target boxes with
              | .error e => .error e
              | .ok sol => .ok [.moveTo solveComp.name sol]

/-- Modelled from the spec: `MoveSingleComponent` — like `move` but refuses
to move anything other than the literally-named articulated component: a
component without its own kinematic chain fails with `NotMovable`. -/
def moveSingleComponent (r : Robot) (componentName : String) (destination : PoseInFrame)
    (worldState : WorldState) : Except MotionError (List Command) :=
  match lookupComponent r componentName with
  | none => .error (.componentNotFound componentName)
  | some comp =>
    if comp.kind.kinematic then
      match mergeTransforms r.frames worldState.transforms with
      | .error e => .error (.missingParent e.frame e.missingParent)
      | .ok fs =>
        match poseInWorld fs destination.frame with
        | none => .error (.frameNotFound destination.frame)
        | some fp =>
          let target := composePose fp destination.pose
          match poseInWorld fs comp.frame with
          | none => .error (.frameNotFound comp.frame)
          | some current =>
            match resolveObstacles fs worldState.obstacles with
            | .error e => .error e
            | .ok boxes =>
              match solveIK current target boxes with
              | .error e => .error e
              | .ok sol => .ok [.moveTo comp.name sol]
    else .error (.notMovable componentName)

/-! ## Test fixtures (modelled from the spec and `builtin_test.go`)

Modelled from the spec: the fixture config files `arm_gantry.json` and
`moving_arm.json` are not among the source files.  `arm_gantry` is the
two-link chain of the spec's GetPose fixture: `gantry1` offset `(1.2, 0, 0)`
from world and `arm1` offset `(500, 0, 300)` in `gantry1`'s frame (values in
the test's units, exact).  `moving_arm` has the arm `pieceArm` (frame at the
world origin), the gripper `pieceGripper` attached to it, and a camera frame
`"c"`.
-/

/-- A static frame with the given translation and identity orientation. -/
def trFrame (name parent : String) (x y z : ℚ) : FrameEntry :=
  ⟨name, parent, ⟨⟨x, y, z⟩, qid⟩⟩

/-- The `arm_gantry.json` frame system. -/
def armGantryFS : FrameSystem :=
  [trFrame "gantry1" worldName 1.2 0 0,
   trFrame "arm1" "gantry1" 500 0 300]

/-- The `arm_gantry.json` robot. -/
def armGantryRobot : Robot :=
  { components :=
      [⟨"gantry1", .gantry, "gantry1", none⟩,
       ⟨"arm1", .arm, "arm1", none⟩],
    frames := armGantryFS }

/-- The `moving_arm.json` frame system. -/
def movingArmFS : FrameSystem :=
  [trFrame "pieceArm" worldName 0 0 0,
   trFrame "pieceGripper" "pieceArm" 0 0 0,
   trFrame "c" worldName 0 0 100]

/-- The `moving_arm.json` robot. -/
def movingArmRobot : Robot :=
  { components :=
      [⟨"pieceArm", .arm, "pieceArm", none⟩,
       ⟨"pieceGripper", .gripper, "pieceGripper", some "pieceArm"⟩],
    frames := movingArmFS }

/-- The empty World State. -/
def emptyWS : WorldState := {}

end RDK

namespace WX250S

/-!
## The wx250s arm driver (`robots/wx250s/arm.go`)

Embedded from the source.  Servo positions are integers in `[0, 4095]`;
degrees are rationals (the Go code uses `float64`, exercised here only on
exact decimal values).
-/

/-- `Arm.JointOrder`: the fixed joint order of the wx250s arm. -/
def JointOrder : List String :=
  ["Waist", "Shoulder", "Elbow", "Forearm_rot", "Wrist", "Wrist_rot"]

/-- Go's `int(x)` conversion of a float: truncation toward zero. -/
def truncQ (q : ℚ) : Int := if 0 ≤ q then ⌊q⌋ else ⌈q⌉

/-- `degreeToServoPos`: a 0-centered degree value to a 0–4096 servo position
centered at 2048 (`int(2048 + (pos/180)*2048)`). -/
def degreeToServoPos (pos : ℚ) : Int := truncQ (2048 + pos / 180 * 2048)

/-- The clamp performed by `Arm.JointTo`: positions above 4095 become 4095,
positions below 0 become 0. -/
def jointToGoal (pos : Int) : Int :=
  if pos > 4095 then 4095 else if pos < 0 then 0 else pos

/-- `Arm.JointTo`: commands the clamped goal position; an error from the
underlying `servo.GoalAndTrack` call is logged (`golog.Global.Errorf`) and
never returned — the Go method has no error result.  The embedding returns
the commanded goal together with the log lines produced. -/
def jointTo (pos : Int) (servoErr : Option String) : Int × List String :=
  (jointToGoal pos, servoErr.toList)

/-- The loop body of `Arm.MoveToJointPositions`: for each input degree value
at index `i`, command joint `JointOrder[i]` to the converted, clamped servo
position.  Returns the commanded `(jointName, goal)` pairs in order. -/
def jointCmds : List String → List ℚ → List (String × Int)
  | _, [] => []
  | [], _ :: _ => []
  | n :: ns, d :: ds => (n, jointToGoal (degreeToServoPos d)) :: jointCmds ns ds

/-- `Arm.MoveToJointPositions`: rejects an input with more entries than the
six named joints ("passed in too many positions") before any servo is
commanded; otherwise commands the first `len(input)` joints in
`JointOrder`. -/
def moveToJointPositions (degrees : List ℚ) : Except String (List (String × Int)) :=
  if degrees.length > JointOrder.length then .error "passed in too many positions"
  else .ok (jointCmds JointOrder degrees)

/-!
### Lock-discipline traces (claim C7)

Each method of `Arm` is abstracted to the sequence of events it performs on
the shared state: acquiring/releasing `moveLock` and issuing serial commands
to servos (`.servo` covers both writes such as `GoalAndTrack` and reads such
as `PresentPosition`/`Moving`).  The traces below transcribe the Go method
bodies in order.
-/

/-- An event on the arm's shared state. -/
inductive Ev where
  | lock
  | unlock
  | servo
  deriving DecidableEq, Repr

/-- The wx250s has 8 servos across its 6 joints. -/
def numServos : Nat := 8

/-- `Arm.WaitForMovement`: acquires `moveLock` (released by `defer`), then
polls every servo's `Moving` register once per 200ms round until all are at
rest; `rounds` is the number of extra polling rounds taken. -/
def waitForMovementTrace (rounds : Nat) : List Ev :=
  [.lock] ++ List.replicate ((rounds + 1) * numServos) .servo ++ [.unlock]

/-- `Arm.MoveToJointPositions`: after the length guard (which touches no
servo), locks, issues one `JointTo` per input entry, unlocks, then calls
`WaitForMovement`. -/
def moveToJointPositionsTrace (degrees : List ℚ) (rounds : Nat) : List Ev :=
  if degrees.length > JointOrder.length then []
  else [.lock] ++ List.replicate degrees.length .servo ++ [.unlock] ++ waitForMovementTrace rounds

/-- `Arm.GetAllAngles`: locks (released by `defer`), reads every servo's
present position. -/
def getAllAnglesTrace : List Ev :=
  [.lock] ++ List.replicate numServos .servo ++ [.unlock]

/-- `Arm.SleepPosition`: locks, issues six `JointTo` calls, unlocks, waits. -/
def sleepPositionTrace (rounds : Nat) : List Ev :=
  [.lock] ++ List.replicate 6 .servo ++ [.unlock] ++ waitForMovementTrace rounds

/-- `Arm.HomePosition`: locks, issues one `JointTo` per joint, unlocks,
waits. -/
def homePositionTrace (rounds : Nat) : List Ev :=
  [.lock] ++ List.replicate 6 .servo ++ [.unlock] ++ waitForMovementTrace rounds

/-- `Arm.TorqueOn`: locks (released by `defer`), enables torque on every
servo. -/
def torqueOnTrace : List Ev :=
  [.lock] ++ List.replicate numServos .servo ++ [.unlock]

/-- `Arm.TorqueOff`: locks (released by `defer`), disables torque on every
servo. -/
def torqueOffTrace : List Ev :=
  [.lock] ++ List.replicate numServos .servo ++ [.unlock]

/-- Scan of a trace keeping the current lock depth: every servo command must
occur at positive depth (i.e. with `moveLock` held), and no unlock may occur
at depth zero. -/
def wellLockedFrom : Nat → List Ev → Bool
  | _, [] => true
  | d, .lock :: r => wellLockedFrom (d + 1) r
  | 0, .unlock :: _ => false
  | d + 1, .unlock :: r => wellLockedFrom d r
  | 0, .servo :: _ => false
  | d + 1, .servo :: r => wellLockedFrom (d + 1) r

/-- A trace is well-locked when every servo command happens with the mutex
held. -/
def wellLocked (t : List Ev) : Bool := wellLockedFrom 0 t

end WX250S

namespace NMEA

/-!
## The serial NMEA GPS (`sensor/gps/nmea/serial.go`)

Embedded from the source.  `serialNMEAGPS.lastLocation` is a `*geo.Point`
that is `nil` until the background read loop has parsed a GLL sentence; the
embedding makes the pointer explicit as an `Option`.  A dereference of the
nil pointer is a Go runtime panic, and `logger.Fatalf` exits the process;
both are distinct outcomes from an ordinary error return.
-/

/-- A parsed geographic point (`geo.Point`). -/
structure GeoPoint where
  lat : ℚ
  lng : ℚ
  deriving DecidableEq, Repr

/-- Outcome of executing a method: a normal return value, a nil-pointer
dereference panic, or a process exit via `logger.Fatalf`. -/
inductive Outcome (α : Type) where
  | ok (val : α)
  | nilPanic
  | fatalExit
  deriving DecidableEq, Repr

/-- `serialNMEAGPS.Location`: returns
`g.lastLocation.Lat(), g.lastLocation.Lng(), nil` with no nil check — when
`lastLocation` is still `nil` the method dereferences a nil `*geo.Point`. -/
def location : Option GeoPoint → Outcome (ℚ × ℚ)
  | none => .nilPanic
  | some p => .ok (p.lat, p.lng)

/-- `serialNMEAGPS.Readings`: calls `Location` and wraps the result; a panic
in `Location` propagates. -/
def readings (lastLocation : Option GeoPoint) : Outcome (ℚ × ℚ) :=
  match location lastLocation with
  | .ok v => .ok v
  | .nilPanic => .nilPanic
  | .fatalExit => .fatalExit

/-- One classified input to the background read loop of
`serialNMEAGPS.Start`. -/
inductive SerialEvent where
  | readError (msg : String)
  | badSentence (line : String)
  | gll (p : GeoPoint)
  | otherSentence
  deriving DecidableEq, Repr

/-- One iteration of the read loop of `serialNMEAGPS.Start`: a read error is
handled with `g.logger.Fatalf` (process exit); an unparsable sentence is
logged at debug level and skipped; a GLL sentence replaces `lastLocation`;
any other sentence is ignored. -/
def readLoopStep (lastLocation : Option GeoPoint) : SerialEvent → Outcome (Option GeoPoint)
  | .readError _ => .fatalExit
  | .badSentence _ => .ok lastLocation
  | .gll p => .ok (some p)
  | .otherSentence => .ok lastLocation

end NMEA

namespace BoardServer

/-!
## The board gRPC server (`subtypeServer.getBoard`)

Embedded from the source: the subtype service's resource map is a name →
resource lookup; `getBoard` returns a typed error when the name is absent or
when the resource it finds is not a board, and performs no hardware call in
either case.
-/

/-- A registered resource: either a board or some other resource kind. -/
inductive Resource where
  | board (id : String)
  | nonBoard (desc : String)
  deriving DecidableEq, Repr

/-- The subtype service's registry: name → resource. -/
abbrev SubtypeService := List (String × Resource)

/-- `subtype.Service.Resource(name)`: `nil` (here `none`) when absent. -/
def resourceLookup (s : SubtypeService) (n : String) : Option Resource :=
  (s.find? (fun p => p.1 == n)).map (fun p => p.2)

/-- `subtypeServer.getBoard`: looks the name up; errors with
`no board with name (<name>)` when absent and with
`resource with name (<name>) is not a board` when the resource fails the
`Board` type assertion; otherwise returns the board. -/
def getBoard (s : SubtypeService) (n : String) : Except String String :=
  match resourceLookup s n with
  | none => .error ("no board with name (" ++ n ++ ")")
  | some (.board b) => .ok b
  | some (.nonBoard _) => .error ("resource with name (" ++ n ++ ") is not a board")

end BoardServer

/-!
## Shared helper lemmas
-/

namespace RDK

/-- Multiplying a quaternion by its conjugate on the left yields the scalar
quaternion of its squared norm. -/
theorem qmul_conj_self (q : Quat) : qmul (qconj q) q = ⟨qnormSq q, 0, 0, 0⟩ := by
  obtain ⟨w, x, y, z⟩ := q
  simp only [qmul, qconj, qnormSq, Quat.mk.injEq]
  refine ⟨by ring, by ring, by ring, by ring⟩

/-- Composing a pose with its inverse yields the identity pose, for a
normalized orientation. -/
theorem composePose_invert_self (p : Pose) (h : qnormSq p.ori = 1) :
    composePose (invertPose p) p = idPose := by
  obtain ⟨⟨px, py, pz⟩, ⟨w, x, y, z⟩⟩ := p
  have h' : w * w + x * x + y * y + z * z = 1 := h
  simp only [composePose, invertPose, rotateQ, qmul, qconj, addV, negV, idPose, qid,
    Pose.mk.injEq, V3.mk.injEq, Quat.mk.injEq]
  refine ⟨⟨by ring, by ring, by ring⟩, by linear_combination h', by ring, by ring, by ring⟩

/-- `transformFrame` from a frame to itself is the identity pose whenever the
frame resolves and its world pose has a normalized orientation. -/
theorem transformFrame_self (fs : FrameSystem) (a : String) (p : Pose)
    (hp : poseInWorld fs a = some p) (hn : qnormSq p.ori = 1) :
    transformFrame fs a a = some idPose := by
  unfold transformFrame
  rw [hp]
  exact congrArg some (composePose_invert_self p hn)

/-- Merging a concatenation of transform lists merges the first list, then
the second into its result (errors short-circuit). -/
theorem mergeTransforms_append (ts₁ ts₂ : List STransform) : ∀ fs : FrameSystem,
    mergeTransforms fs (ts₁ ++ ts₂) =
      match mergeTransforms fs ts₁ with
      | .ok fs' => mergeTransforms fs' ts₂
      | .error e => .error e := by
  induction ts₁ with
  | nil => intro fs; rfl
  | cons t rest ih =>
    intro fs
    simp only [List.cons_append, mergeTransforms]
    cases h : hasFrame fs t.parent
    · simp
    · simp [ih]

/-- A successful merge produces exactly the static frames followed by the
supplemental transforms, in order: the frames visible while inserting a
later transform are the static system plus the earlier transforms. -/
theorem mergeTransforms_names (ts : List STransform) : ∀ fs fs' : FrameSystem,
    mergeTransforms fs ts = .ok fs' →
    fs'.map FrameEntry.name = fs.map FrameEntry.name ++ ts.map STransform.name := by
  induction ts with
  | nil =>
    intro fs fs' h
    cases h
    simp
  | cons t rest ih =>
    intro fs fs' h
    unfold mergeTransforms at h
    by_cases hp : hasFrame fs t.parent
    · rw [if_pos hp] at h
      have := ih _ _ h
      simpa [List.append_assoc] using this
    · rw [if_neg hp] at h
      simp at h

end RDK

namespace WX250S

/-- The joints commanded by `jointCmds` are the joint names taken in order,
one per input entry. -/
theorem jointCmds_map_fst : ∀ (ns : List String) (ds : List ℚ),
    (jointCmds ns ds).map Prod.fst = ns.take ds.length := by
  intro ns ds
  induction ds generalizing ns with
  | nil => cases ns <;> rfl
  | cons d ds ih =>
    cases ns with
    | nil => rfl
    | cons n ns => simp [jointCmds, ih]

/-- `jointCmds` emits one command per input entry, up to the number of
joints. -/
theorem jointCmds_length : ∀ (ns : List String) (ds : List ℚ),
    (jointCmds ns ds).length = min ns.length ds.length := by
  intro ns ds
  induction ds generalizing ns with
  | nil => cases ns <;> simp [jointCmds]
  | cons d ds ih =>
    cases ns with
    | nil => simp [jointCmds]
    | cons n ns => simp [jointCmds, ih]; omega

/-- Servo commands issued while the lock is held leave the well-lockedness
scan unchanged. -/
theorem wellLockedFrom_replicate (k : Nat) (d : Nat) (rest : List Ev) :
    wellLockedFrom (d + 1) (List.replicate k Ev.servo ++ rest) = wellLockedFrom (d + 1) rest := by
  induction k with
  | zero => rfl
  | succ n ih => simpa [List.replicate_succ, wellLockedFrom] using ih

/-- `WaitForMovement` polls servos only while holding the lock. -/
theorem wellLocked_wait (rounds : Nat) : wellLocked (waitForMovementTrace rounds) = true := by
  simp [wellLocked, waitForMovementTrace, wellLockedFrom, wellLockedFrom_replicate]

end WX250S

/-!
## Claim theorems
-/

open RDK in
/-- Claim C1: a World State containing a supplemental transform whose declared
parent resolves neither to a frame of the static Frame System nor to an
earlier supplemental transform is rejected whole: the merge fails with
`MissingParentError{frame, missingParent}` naming the orphan and its missing
parent (the `Except` result carries no extended frame system, so no partial
merge occurs), `Move` and `GetPose` fail with that error and command no
motion, and on the `arm_gantry` fixture the transform `"frame2"` with parent
`"noParent"` yields `MissingParentError{frame: "frame2", missingParent:
"noParent"}`.  The first conjunct records that the frames visible to the
orphan are exactly the static frames plus the earlier supplemental
transforms. -/
theorem C1_missing_parent_rejection
    (r : Robot) (cname : String) (c : Component) (dest : PoseInFrame) (dstF : String)
    (obs : List Obstacle) (pre : List STransform) (t : STransform) (post : List STransform)
    (fs' : FrameSystem)
    (hc : lookupComponent r cname = some c)
    (hpre : mergeTransforms r.frames pre = .ok fs')
    (horphan : hasFrame fs' t.parent = false) :
    fs'.map FrameEntry.name = r.frames.map FrameEntry.name ++ pre.map STransform.name ∧
    mergeTransforms r.frames (pre ++ t :: post) = .error ⟨t.name, t.parent⟩ ∧
    move r cname dest ⟨obs, pre ++ t :: post⟩ = .error (.missingParent t.name t.parent) ∧
    getPose r cname dstF (pre ++ t :: post) = .error (.missingParent t.name t.parent) ∧
    move armGantryRobot "arm1" ⟨"frame2", idPose⟩
        { transforms := [⟨"noParent", "frame2", ⟨⟨1, 2, 3⟩, qid⟩⟩] }
      = .error (.missingParent "frame2" "noParent") ∧
    getPose armGantryRobot "arm1" "testFrame" [⟨"noParent", "testFrame", ⟨⟨1, 2, 3⟩, qid⟩⟩]
      = .error (.missingParent "testFrame" "noParent") := by
  have hmerge : mergeTransforms r.frames (pre ++ t :: post) = .error ⟨t.name, t.parent⟩ := by
    rw [mergeTransforms_append, hpre]
    show mergeTransforms fs' (t :: post) = _
    unfold mergeTransforms
    rw [horphan]
    simp
  refine ⟨mergeTransforms_names pre r.frames fs' hpre, hmerge, ?_, ?_, ?_, ?_⟩
  · simp [move, hc, hmerge]
  · simp [getPose, hc, hmerge]
  · simp [move, lookupComponent, armGantryRobot, armGantryFS, trFrame, List.find?,
      mergeTransforms, hasFrame, worldName]
  · simp [getPose, lookupComponent, armGantryRobot, armGantryFS, trFrame, List.find?,
      mergeTransforms, hasFrame, worldName]

open RDK in
/-- Witness for C1 at the fixture input: merging the single transform
`"frame2"` with unresolved parent `"noParent"` into the `arm_gantry` frame
system fails with the structured missing-parent error. -/
theorem C1_missing_parent_rejection_witness :
    mergeTransforms armGantryRobot.frames [⟨"noParent", "frame2", ⟨⟨1, 2, 3⟩, qid⟩⟩]
      = .error ⟨"frame2", "noParent"⟩ :=
  (C1_missing_parent_rejection armGantryRobot "arm1" ⟨"arm1", .arm, "arm1", none⟩
      ⟨"frame2", idPose⟩ "frame2" [] [] ⟨"noParent", "frame2", ⟨⟨1, 2, 3⟩, qid⟩⟩ []
      armGantryFS rfl rfl rfl).2.1

open RDK in
/-- Claim C2: on the `arm_gantry` fixture (gantry offset `1.2` on the x axis
from world, arm offset `(500, 0, 300)` in the gantry's frame),
`GetPose(gantry1, World)` is `(1.2, 0, 0)` in frame `world` and
`GetPose(arm1, World)` is `(501.2, 0, 300)` in frame `world`. -/
theorem C2_getpose_chain_values :
    getPose armGantryRobot "gantry1" "" [] = .ok ⟨worldName, ⟨⟨1.2, 0, 0⟩, qid⟩⟩ ∧
    getPose armGantryRobot "arm1" "" [] = .ok ⟨worldName, ⟨⟨501.2, 0, 300⟩, qid⟩⟩ := by
  constructor <;>
  · simp [getPose, lookupComponent, armGantryRobot, armGantryFS, trFrame, List.find?,
      mergeTransforms, transformFrame, poseInWorld, poseInWorldAux, worldName,
      composePose, invertPose, rotateQ, qmul, qconj, addV, negV, idPose, qid] <;>
    norm_num

open RDK in
/-- Counterexample to C3 as stated: `GetPose(gantry1, arm1)` — the pose of
`gantry1` relative to `arm1`'s frame — is `(-500, 0, -300)`, not the claimed
identity-relative `(0, 0, 0)`. -/
theorem C3_self_pose_counterexample :
    getPose armGantryRobot "gantry1" "arm1" [] = .ok ⟨"arm1", ⟨⟨-500, 0, -300⟩, qid⟩⟩ ∧
    Pose.mk ⟨-500, 0, -300⟩ qid ≠ Pose.mk ⟨0, 0, 0⟩ qid := by
  constructor
  · simp [getPose, lookupComponent, armGantryRobot, armGantryFS, trFrame, List.find?,
      mergeTransforms, transformFrame, poseInWorld, poseInWorldAux, worldName,
      composePose, invertPose, rotateQ, qmul, qconj, addV, negV, idPose, qid] <;>
    norm_num
  · decide

open RDK in
/-- Claim C3 (amended): `GetPose(gantry1, gantry1)` and `GetPose(arm1, arm1)`
both return the identity-relative position exactly `(0, 0, 0)`; in general
`transformFrame` of any frame relative to itself is the identity pose
(whenever the frame resolves and its orientation is normalized). -/
theorem C3_self_pose_identity (fs : FrameSystem) (a : String) (p : Pose)
    (hp : poseInWorld fs a = some p) (hn : qnormSq p.ori = 1) :
    transformFrame fs a a = some idPose ∧
    getPose armGantryRobot "gantry1" "gantry1" [] = .ok ⟨"gantry1", idPose⟩ ∧
    getPose armGantryRobot "arm1" "arm1" [] = .ok ⟨"arm1", idPose⟩ := by
  refine ⟨transformFrame_self fs a p hp hn, ?_, ?_⟩ <;>
  · simp [getPose, lookupComponent, armGantryRobot, armGantryFS, trFrame, List.find?,
      mergeTransforms, transformFrame, poseInWorld, poseInWorldAux, worldName,
      composePose, invertPose, rotateQ, qmul, qconj, addV, negV, idPose, qid] <;>
    norm_num

open RDK in
/-- Witness for C3 (amended) at the fixture input: the `arm1` frame relative
to itself is the identity pose. -/
theorem C3_self_pose_identity_witness :
    transformFrame armGantryFS "arm1" "arm1" = some idPose :=
  (C3_self_pose_identity armGantryFS "arm1" ⟨⟨501.2, 0, 300⟩, qid⟩
    (by simp [poseInWorld, poseInWorldAux, armGantryFS, trFrame, List.find?, worldName,
          composePose, rotateQ, qmul, qconj, addV, idPose, qid] <;> norm_num)
    (by norm_num [qnormSq, qid])).1

open RDK in
/-- Claim C4: on the `moving_arm` fixture, moving `pieceArm` to a reachable
destination succeeds (emitting a move command) when the World State holds no
blocking obstacle, and fails with `Infeasible` — commanding no motion — when
the World State holds the large `2000×2000×20` box anchored at world that
spans the straight-line path to the destination. -/
theorem C4_move_obstacle_feasibility :
    move movingArmRobot "pieceArm" ⟨worldName, ⟨⟨-600, -400, 460⟩, qid⟩⟩ emptyWS
      = .ok [.moveTo "pieceArm" ⟨⟨-600, -400, 460⟩, qid⟩] ∧
    move movingArmRobot "pieceArm" ⟨worldName, ⟨⟨-600, -400, 460⟩, qid⟩⟩
      { obstacles := [⟨worldName, ⟨⟨300, 300, -3500⟩, qid⟩, ⟨20, 40, 40⟩⟩,
                      ⟨worldName, ⟨⟨0, 0, 370⟩, qid⟩, ⟨2000, 2000, 20⟩⟩] }
      = .error .infeasible := by
  constructor <;>
  · simp [move, lookupComponent, movingArmRobot, movingArmFS, trFrame, List.find?,
      mergeTransforms, transformFrame, poseInWorld, poseInWorldAux, worldName,
      composePose, invertPose, rotateQ, qmul, qconj, addV, negV, idPose, qid,
      solvingComponent, Kind.kinematic, resolveObstacles, solveIK, List.any,
      segIntersectsBox, absQ, halfV, emptyWS] <;>
    norm_num

open RDK in
/-- Claim C5: `MoveSingleComponent` targeting the gripper (no kinematic chain
of its own) fails, while targeting its parent arm with the same destination
pose succeeds. -/
theorem C5_move_single_component_gripper_rejection :
    moveSingleComponent movingArmRobot "pieceGripper" ⟨"c", ⟨⟨-25, 30, -200⟩, qid⟩⟩ emptyWS
      = .error (.notMovable "pieceGripper") ∧
    moveSingleComponent movingArmRobot "pieceArm" ⟨"c", ⟨⟨-25, 30, -200⟩, qid⟩⟩ emptyWS
      = .ok [.moveTo "pieceArm" ⟨⟨-25, 30, -100⟩, qid⟩] := by
  constructor <;>
  · simp [moveSingleComponent, lookupComponent, movingArmRobot, movingArmFS, trFrame,
      List.find?, mergeTransforms, transformFrame, poseInWorld, poseInWorldAux, worldName,
      composePose, invertPose, rotateQ, qmul, qconj, addV, negV, idPose, qid,
      Kind.kinematic, resolveObstacles, solveIK, List.any, segIntersectsBox, absQ,
      halfV, emptyWS] <;>
    norm_num

open RDK in
/-- Claim C6: a request naming an absent resource returns a typed not-found
error with no hardware call: `getBoard` errors for an unregistered name and
for a registered resource that is not a board, and `Move` on an unknown
component returns `ComponentNotFound` (commanding nothing). -/
theorem C6_unknown_resource_rejection :
    (∀ (s : BoardServer.SubtypeService) (n : String),
      BoardServer.resourceLookup s n = none →
      BoardServer.getBoard s n = .error ("no board with name (" ++ n ++ ")")) ∧
    (∀ (s : BoardServer.SubtypeService) (n d : String),
      BoardServer.resourceLookup s n = some (.nonBoard d) →
      BoardServer.getBoard s n = .error ("resource with name (" ++ n ++ ") is not a board")) ∧
    move armGantryRobot "fake" ⟨"fakeCamera", ⟨⟨10, 10, 10⟩, qid⟩⟩ emptyWS
      = .error (.componentNotFound "fake") := by
  refine ⟨?_, ?_, ?_⟩
  · intro s n h
    simp [BoardServer.getBoard, h]
  · intro s n d h
    simp [BoardServer.getBoard, h]
  · simp [move, lookupComponent, armGantryRobot, List.find?]

/-- Witness for C6 at concrete inputs: an empty registry has no board named
`"fake"`, and a registry holding only a motor rejects the board request for
that name. -/
theorem C6_unknown_resource_rejection_witness :
    BoardServer.getBoard [] "fake" = .error "no board with name (fake)" ∧
    BoardServer.getBoard [("m", .nonBoard "motor")] "m"
      = .error "resource with name (m) is not a board" :=
  ⟨C6_unknown_resource_rejection.1 [] "fake" rfl,
   C6_unknown_resource_rejection.2.1 [("m", .nonBoard "motor")] "m" "motor" rfl⟩

/-- Claim C7: every wx250s arm method that touches a servo —
`MoveToJointPositions`, `GetAllAngles`, `SleepPosition`, `HomePosition`,
`TorqueOn`, `TorqueOff`, `WaitForMovement` — issues its serial servo
commands only while holding the shared `moveLock`, for every input and every
number of polling rounds: each method's event trace is well-locked, so under
mutex semantics no two joint commands to the same actuator chain overlap. -/
theorem C7_commands_serialized_behind_move_lock (degrees : List ℚ) (rounds : Nat) :
    WX250S.wellLocked (WX250S.moveToJointPositionsTrace degrees rounds) = true ∧
    WX250S.wellLocked WX250S.getAllAnglesTrace = true ∧
    WX250S.wellLocked (WX250S.sleepPositionTrace rounds) = true ∧
    WX250S.wellLocked (WX250S.homePositionTrace rounds) = true ∧
    WX250S.wellLocked WX250S.torqueOnTrace = true ∧
    WX250S.wellLocked WX250S.torqueOffTrace = true ∧
    WX250S.wellLocked (WX250S.waitForMovementTrace rounds) = true := by
  refine ⟨?_, ?_, ?_, ?_, ?_, ?_, WX250S.wellLocked_wait rounds⟩
  · unfold WX250S.moveToJointPositionsTrace
    split
    · rfl
    · simp [WX250S.wellLocked, WX250S.wellLockedFrom, WX250S.wellLockedFrom_replicate,
        WX250S.waitForMovementTrace]
  all_goals
    simp [WX250S.wellLocked, WX250S.getAllAnglesTrace, WX250S.sleepPositionTrace,
      WX250S.homePositionTrace, WX250S.torqueOnTrace, WX250S.torqueOffTrace,
      WX250S.waitForMovementTrace, WX250S.wellLockedFrom, WX250S.wellLockedFrom_replicate]

/-- Claim C8 (code bug): the serial NMEA GPS dereferences its nil
`lastLocation` pointer when `Location` (and hence `Readings`) is called
before any GLL sentence has been parsed — a runtime panic, not an error
return — and its read loop handles a transient serial read error with
`logger.Fatalf`, which exits the process instead of returning an error. -/
theorem C8_gps_nil_location_panics :
    NMEA.location none = .nilPanic ∧
    NMEA.readings none = .nilPanic ∧
    (∀ (lastLoc : Option NMEA.GeoPoint) (m : String),
      NMEA.readLoopStep lastLoc (.readError m) = .fatalExit) ∧
    (∀ p : NMEA.GeoPoint, NMEA.location (some p) = .ok (p.lat, p.lng)) :=
  ⟨rfl, rfl, fun _ _ => rfl, fun _ => rfl⟩

/-- Claim C9: `MoveToJointPositions` on the wx250s arm rejects an input with
more entries than the six named joints with an error (commanding nothing),
and otherwise commands exactly the first `len(input)` joints in the fixed
`JointOrder`, one command per input entry, leaving the remaining joints
uncommanded. -/
theorem C9_move_to_joint_positions_takes_first (degrees : List ℚ) :
    (WX250S.JointOrder.length < degrees.length →
      WX250S.moveToJointPositions degrees = .error "passed in too many positions") ∧
    (degrees.length ≤ WX250S.JointOrder.length →
      WX250S.moveToJointPositions degrees = .ok (WX250S.jointCmds WX250S.JointOrder degrees) ∧
      (WX250S.jointCmds WX250S.JointOrder degrees).map Prod.fst
        = WX250S.JointOrder.take degrees.length ∧
      (WX250S.jointCmds WX250S.JointOrder degrees).length = degrees.length) := by
  constructor
  · intro h
    simp [WX250S.moveToJointPositions, h]
  · intro h
    refine ⟨?_, WX250S.jointCmds_map_fst _ _, ?_⟩
    · unfold WX250S.moveToJointPositions
      rw [if_neg (by have h6 : WX250S.JointOrder.length = 6 := rfl; omega)]
    · rw [WX250S.jointCmds_length]
      have h6 : WX250S.JointOrder.length = 6 := rfl
      rw [h6] at h ⊢
      omega

/-- Witness for C9 at concrete inputs: a seven-entry input is rejected, and a
two-entry input commands exactly the Waist and Shoulder joints. -/
theorem C9_move_to_joint_positions_takes_first_witness :
    WX250S.moveToJointPositions (List.replicate 7 (0 : ℚ))
      = .error "passed in too many positions" ∧
    (WX250S.jointCmds WX250S.JointOrder [0, 90]).map Prod.fst = ["Waist", "Shoulder"] :=
  ⟨(C9_move_to_joint_positions_takes_first (List.replicate 7 0)).1 (by decide),
   ((C9_move_to_joint_positions_takes_first [0, 90]).2 (by decide)).2.1⟩

/-- Claim C10: `JointTo` on the wx250s arm always commands a servo goal
within `[0, 4095]` — inputs above 4095 are silently clamped to 4095, inputs
below 0 to 0, in-range inputs pass through — and an error from the
underlying servo command is only logged, never propagated (the result
carries no error channel). -/
theorem C10_joint_to_clamps_and_logs (pos : Int) (servoErr : Option String) :
    0 ≤ (WX250S.jointTo pos servoErr).1 ∧
    (WX250S.jointTo pos servoErr).1 ≤ 4095 ∧
    (4095 < pos → (WX250S.jointTo pos servoErr).1 = 4095) ∧
    (pos < 0 → (WX250S.jointTo pos servoErr).1 = 0) ∧
    (0 ≤ pos → pos ≤ 4095 → (WX250S.jointTo pos servoErr).1 = pos) ∧
    (WX250S.jointTo pos servoErr).2 = servoErr.toList := by
  simp only [WX250S.jointTo, WX250S.jointToGoal]
  refine ⟨?_, ?_, ?_, ?_, ?_, by trivial⟩ <;> (intros; split_ifs <;> omega)

/-- Witness for C10 at concrete inputs: 5000 is clamped to 4095 even when the
servo reports an error, and -10 is clamped to 0. -/
theorem C10_joint_to_clamps_and_logs_witness :
    (WX250S.jointTo 5000 (some "overload")).1 = 4095 ∧
    (WX250S.jointTo (-10) none).1 = 0 :=
  ⟨(C10_joint_to_clamps_and_logs 5000 (some "overload")).2.2.1 (by decide),
   (C10_joint_to_clamps_and_logs (-10) none).2.2.2.1 (by decide)⟩
